import Mathlib

/-!
Verification development for the swarm-notion repository: a shallow
embedding of its Notion content-client operations (tools.py), its
three-agent delegation graph (agents.py) and its interactive session
loop (app.py), together with theorems settling the specified properties.
-/

namespace SwarmNotion

/-- JSON values, as built by the Python dict and list literals in the
source. Object fields keep their insertion order. -/
inductive Json where
  | str : String → Json
  | bool : Bool → Json
  | arr : List Json → Json
  | obj : List (String × Json) → Json
deriving Repr

/-- Look up a field of a JSON object, first match wins (Python dict
with the insertion orders used in the source has unique keys). -/
def jsonLookup : Json → String → Option Json
  | .obj fields, k => fields.lookup k
  | _, _ => none

/-- Process configuration read from the environment at import time in
tools.py: NOTION_API_KEY, NOTION_PAGE_ID, NOTION_ENDPOINT. -/
structure Config where
  NOTION_API_KEY : String
  NOTION_PAGE_ID : String
  NOTION_ENDPOINT : String
deriving Repr, DecidableEq

/-- HTTP method of a request issued through httpx. -/
inductive Method where
  | post
  | patch
deriving Repr, DecidableEq

/-- One outgoing HTTP request as assembled by a tool function. -/
structure Request where
  method : Method
  url : String
  headers : List (String × String)
  body : Json
deriving Repr

/-- Possible outcomes of one httpx call: a response whose body parses
to JSON, an httpx.ReadTimeout, or some other transport exception. -/
inductive HttpOutcome where
  | response : Json → HttpOutcome
  | readTimeout : HttpOutcome
  | otherError : HttpOutcome
deriving Repr

/-- An exception escaping a tool function. -/
inductive PyExn where
  | otherError : PyExn
deriving Repr, DecidableEq

/-- Result of running one tool: the value returned (or the exception
propagated), together with the list of HTTP requests issued. -/
structure ToolOutput where
  result : Except PyExn Json
  requests : List Request
deriving Repr

/-- The structured error value returned when a call times out. -/
def timeoutJson : Json := Json.obj [("error", Json.str "Request timed out")]

/-- Shared tail of every tool function in tools.py: issue the request
inside try and catch httpx.ReadTimeout, returning the structured
timeout error; any other exception propagates. -/
def tryRequest (http : Request → HttpOutcome) (req : Request) : ToolOutput :=
  match http req with
  | .response j => ⟨.ok j, [req]⟩
  | .readTimeout => ⟨.ok timeoutJson, [req]⟩
  | .otherError => ⟨.error .otherError, [req]⟩

/-- Characters stripped by Python str.strip with no argument, restricted
to the ASCII whitespace actually reachable from the CLI. -/
def pyIsSpace (c : Char) : Bool :=
  c = ' ' || c = '\t' || c = '\n' || c = '\x0d' || Char.ofNat 11 = c || Char.ofNat 12 = c

/-- Python str.strip on the character list of a string. -/
def pyStripList (l : List Char) : List Char :=
  ((l.dropWhile pyIsSpace).reverse.dropWhile pyIsSpace).reverse

/-- Python str.strip with no argument: remove leading and trailing
whitespace. -/
def pyStrip (s : String) : String := ⟨pyStripList s.data⟩

/-- Helper for pySplitComma: split a character list at every comma,
the accumulator holding the current segment reversed. -/
def splitCommaAux : List Char → List Char → List (List Char)
  | [], acc => [acc.reverse]
  | c :: rest, acc =>
      if c = ',' then acc.reverse :: splitCommaAux rest []
      else splitCommaAux rest (c :: acc)

/-- Python s.split with a comma separator: in particular the empty
string splits to a single empty element. -/
def pySplitComma (s : String) : List String :=
  (splitCommaAux s.data []).map fun l => ⟨l⟩

/-- Does the first list start with the second list. -/
def listStartsWith : List Char → List Char → Bool
  | _, [] => true
  | [], _ :: _ => false
  | a :: as, b :: bs => a = b && listStartsWith as bs

/-- Substring containment on character lists, as the Python in operator
on strings. -/
def listContains : List Char → List Char → Bool
  | [], needle => needle.isEmpty
  | c :: rest, needle => listStartsWith (c :: rest) needle || listContains rest needle

/-- Python needle in haystack, on strings. -/
def pyInStr (needle haystack : String) : Bool :=
  listContains haystack.data needle.data

/-- Python str.lower, modelled on the ASCII input reachable here. -/
def pyLower (s : String) : String := ⟨s.data.map Char.toLower⟩

/-- Headers sent with every Notion request. -/
def notionHeaders (api_key : String) : List (String × String) :=
  [("Authorization", "Bearer " ++ api_key),
   ("Content-Type", "application/json"),
   ("Notion-Version", "2022-06-28")]

/-- The block-children endpoint URL built by every block tool. -/
def childrenUrl (cfg : Config) : String :=
  cfg.NOTION_ENDPOINT ++ "/blocks/" ++ cfg.NOTION_PAGE_ID ++ "/children"

/-- Python argument that may arrive either as a str or as a list of
str, as accepted by the three list tools. -/
inductive StrOrList where
  | str : String → StrOrList
  | list : List String → StrOrList
deriving Repr

/-- The isinstance(items, str) normalization shared by the three list
tools: a string is split on commas and each piece stripped. -/
def normalizeItems : StrOrList → List String
  | .str s => (pySplitComma s).map pyStrip
  | .list l => l

/-- A type text rich-text object without a link. -/
def textObj (content : String) : Json :=
  Json.obj [("type", Json.str "text"), ("text", Json.obj [("content", Json.str content)])]

/-- A type text rich-text object carrying a hyperlink: the source
builds the plain object and then assigns text.link before sending. -/
def textObjLinked (content url : String) : Json :=
  Json.obj [("type", Json.str "text"),
            ("text", Json.obj [("content", Json.str content),
                               ("link", Json.obj [("url", Json.str url)])])]

/-- create_notion_page from tools.py: one POST to the pages endpoint. -/
def create_notion_page (cfg : Config) (http : Request → HttpOutcome)
    (page_title : String) : ToolOutput :=
  let url := cfg.NOTION_ENDPOINT ++ "/pages"
  let headers := notionHeaders cfg.NOTION_API_KEY
  let properties :=
    Json.obj [("title", Json.obj [("title",
      Json.arr [Json.obj [("text", Json.obj [("content", Json.str page_title)])]])])]
  tryRequest http
    ⟨.post, url, headers,
     Json.obj [("parent", Json.obj [("page_id", Json.str cfg.NOTION_PAGE_ID)]),
               ("properties", properties)]⟩

/-- add_notion_heading_block from tools.py. -/
def add_notion_heading_block (cfg : Config) (http : Request → HttpOutcome)
    (heading_type : String) (content : String) (is_hyperlink : Bool)
    (hyperlink_url : String) (color : String) : ToolOutput :=
  let headers := notionHeaders cfg.NOTION_API_KEY
  let text_obj := if is_hyperlink then textObjLinked content hyperlink_url else textObj content
  let data :=
    Json.obj [("children", Json.arr
      [Json.obj [("object", Json.str "block"),
                 ("type", Json.str heading_type),
                 (heading_type, Json.obj [("rich_text", Json.arr [text_obj]),
                                          ("color", Json.str color)])]])]
  tryRequest http ⟨.patch, childrenUrl cfg, headers, data⟩

/-- add_notion_paragraph_block from tools.py. -/
def add_notion_paragraph_block (cfg : Config) (http : Request → HttpOutcome)
    (content : String) (is_hyperlink : Bool) (hyperlink_url : String)
    (color : String) : ToolOutput :=
  let headers := notionHeaders cfg.NOTION_API_KEY
  let text_obj := if is_hyperlink then textObjLinked content hyperlink_url else textObj content
  let data :=
    Json.obj [("children", Json.arr
      [Json.obj [("object", Json.str "block"),
                 ("type", Json.str "paragraph"),
                 ("paragraph", Json.obj [("rich_text", Json.arr [text_obj]),
                                         ("color", Json.str color)])]])]
  tryRequest http ⟨.patch, childrenUrl cfg, headers, data⟩

/-- add_notion_code_block from tools.py. -/
def add_notion_code_block (cfg : Config) (http : Request → HttpOutcome)
    (code : String) (language : String) (caption : List String) : ToolOutput :=
  let headers := notionHeaders cfg.NOTION_API_KEY
  let data :=
    Json.obj [("children", Json.arr
      [Json.obj [("object", Json.str "block"),
                 ("type", Json.str "code"),
                 ("code", Json.obj
                   [("caption", Json.arr (caption.map fun c =>
                      Json.obj [("text", Json.obj [("content", Json.str c)])])),
                    ("rich_text", Json.arr [textObj code]),
                    ("language", Json.str language)])]])]
  tryRequest http ⟨.patch, childrenUrl cfg, headers, data⟩

/-- add_notion_embed_block from tools.py: the url parameter is rebound
to the block-children endpoint before the payload is built, so the
embed carries that endpoint address. -/
def add_notion_embed_block (cfg : Config) (http : Request → HttpOutcome)
    (url : String) : ToolOutput :=
  let url := childrenUrl cfg
  let headers := notionHeaders cfg.NOTION_API_KEY
  let data :=
    Json.obj [("children", Json.arr
      [Json.obj [("object", Json.str "block"),
                 ("type", Json.str "embed"),
                 ("embed", Json.obj [("url", Json.str url)])]])]
  tryRequest http ⟨.patch, url, headers, data⟩

/-- add_notion_youtube_url_block from tools.py: guarded by two
substring checks before any request is issued. -/
def add_notion_youtube_url_block (cfg : Config) (http : Request → HttpOutcome)
    (video_url : String) : ToolOutput :=
  if ¬ (pyInStr "youtube.com" video_url) then
    ⟨.ok (Json.obj [("error", Json.str "Invalid YouTube video URL")]), []⟩
  else if ¬ (pyInStr "watch?v=" video_url) then
    ⟨.ok (Json.obj [("error", Json.str "Invalid YouTube video URL")]), []⟩
  else
    let headers := notionHeaders cfg.NOTION_API_KEY
    let data :=
      Json.obj [("children", Json.arr
        [Json.obj [("object", Json.str "block"),
                   ("type", Json.str "video"),
                   ("video", Json.obj [("type", Json.str "external"),
                                       ("external", Json.obj [("url", Json.str video_url)])])]])]
    tryRequest http ⟨.patch, childrenUrl cfg, headers, data⟩

/-- add_notion_image_block from tools.py. -/
def add_notion_image_block (cfg : Config) (http : Request → HttpOutcome)
    (image_url : String) : ToolOutput :=
  let headers := notionHeaders cfg.NOTION_API_KEY
  let data :=
    Json.obj [("children", Json.arr
      [Json.obj [("object", Json.str "block"),
                 ("type", Json.str "image"),
                 ("image", Json.obj [("type", Json.str "external"),
                                     ("external", Json.obj [("url", Json.str image_url)])])]])]
  tryRequest http ⟨.patch, childrenUrl cfg, headers, data⟩

/-- add_notion_bookmark_block from tools.py. -/
def add_notion_bookmark_block (cfg : Config) (http : Request → HttpOutcome)
    (link : String) (caption : String) : ToolOutput :=
  let headers := notionHeaders cfg.NOTION_API_KEY
  let data :=
    Json.obj [("children", Json.arr
      [Json.obj [("object", Json.str "block"),
                 ("type", Json.str "bookmark"),
                 ("bookmark", Json.obj
                   [("url", Json.str link),
                    ("caption", Json.arr
                      [Json.obj [("text", Json.obj [("content", Json.str caption)])]])])]])]
  tryRequest http ⟨.patch, childrenUrl cfg, headers, data⟩

/-- One numbered_list_item child block. -/
def numberedItemBlock (item : String) : Json :=
  Json.obj [("object", Json.str "block"),
            ("type", Json.str "numbered_list_item"),
            ("numbered_list_item", Json.obj [("rich_text", Json.arr [textObj item])])]

/-- add_notion_number_list_block from tools.py. -/
def add_notion_number_list_block (cfg : Config) (http : Request → HttpOutcome)
    (items : StrOrList) : ToolOutput :=
  let items := normalizeItems items
  let headers := notionHeaders cfg.NOTION_API_KEY
  let data := Json.obj [("children", Json.arr (items.map numberedItemBlock))]
  tryRequest http ⟨.patch, childrenUrl cfg, headers, data⟩

/-- One bulleted_list_item child block. -/
def bulletedItemBlock (item : String) : Json :=
  Json.obj [("object", Json.str "block"),
            ("type", Json.str "bulleted_list_item"),
            ("bulleted_list_item", Json.obj [("rich_text", Json.arr [textObj item])])]

/-- add_notion_bulleted_list_block from tools.py. -/
def add_notion_bulleted_list_block (cfg : Config) (http : Request → HttpOutcome)
    (items : StrOrList) : ToolOutput :=
  let items := normalizeItems items
  let headers := notionHeaders cfg.NOTION_API_KEY
  let data := Json.obj [("children", Json.arr (items.map bulletedItemBlock))]
  tryRequest http ⟨.patch, childrenUrl cfg, headers, data⟩

/-- One to_do child block with a checked flag. -/
def toDoItemBlock (checked : Bool) (item : String) : Json :=
  Json.obj [("object", Json.str "block"),
            ("type", Json.str "to_do"),
            ("to_do", Json.obj [("rich_text", Json.arr [textObj item]),
                                ("checked", Json.bool checked)])]

/-- add_notion_to_do_block from tools.py. -/
def add_notion_to_do_block (cfg : Config) (http : Request → HttpOutcome)
    (items : StrOrList) (checked : Bool) : ToolOutput :=
  let items := normalizeItems items
  let headers := notionHeaders cfg.NOTION_API_KEY
  let data := Json.obj [("children", Json.arr (items.map (toDoItemBlock checked)))]
  tryRequest http ⟨.patch, childrenUrl cfg, headers, data⟩

/-- Identity of a node in the delegation graph of agents.py. -/
inductive NodeId where
  | delegate
  | page
  | block
deriving Repr, DecidableEq

/-- A capability held by an agent: either one of the three transfer
functions or one of the content tools registered in agents.py. -/
inductive Capability where
  | transfer_to_notion_delegate_agent
  | transfer_to_notion_page_agent
  | transfer_to_notion_block_agent
  | create_notion_page
  | add_notion_heading_block
  | add_notion_paragraph_block
  | add_notion_code_block
  | add_notion_embed_block
  | add_notion_youtube_url_block
  | add_notion_image_block
  | add_notion_bookmark_block
  | add_notion_number_list_block
  | add_notion_bulleted_list_block
  | add_notion_to_do_block
deriving Repr, DecidableEq

/-- Is this capability one of the three transfer functions. -/
def Capability.isTransfer : Capability → Bool
  | .transfer_to_notion_delegate_agent => true
  | .transfer_to_notion_page_agent => true
  | .transfer_to_notion_block_agent => true
  | _ => false

/-- Does this capability issue a content write against the remote API
when invoked (every non-transfer capability does). -/
def Capability.isContentMutating (c : Capability) : Bool :=
  ¬ c.isTransfer

/-- A swarm Agent as configured in agents.py: name, model,
instructions and ordered capability list. -/
structure Agent where
  name : String
  model : String
  instructions : String
  functions : List Capability
deriving Repr, DecidableEq

/-- MODEL constant of agents.py. -/
def MODEL : String := "gpt-4o-mini"

/-- Placeholder bodies of the prompt strings of prompts.py: their text
guides the oracle and is not interpreted by the core. -/
def delegate_agent_prompt : String := "delegate agent instructions"

/-- Page agent prompt text, opaque to the core. -/
def page_agent_prompt : String := "page agent instructions"

/-- Block agent prompt text, opaque to the core. -/
def block_agent_prompt : String := "block agent instructions"

/-- notion_delegate_agent as constructed in agents.py; its function
list is never extended afterwards. -/
def notion_delegate_agent : Agent :=
  ⟨"Notion Delegate Agent", MODEL, delegate_agent_prompt,
   [.transfer_to_notion_page_agent, .transfer_to_notion_block_agent]⟩

/-- notion_page_agent after the functions.extend call in agents.py. -/
def notion_page_agent : Agent :=
  ⟨"Notion Page Agent", MODEL, page_agent_prompt,
   [.transfer_to_notion_delegate_agent] ++ [.create_notion_page]⟩

/-- notion_block_agent after the functions.extend call in agents.py. -/
def notion_block_agent : Agent :=
  ⟨"Notion Block Agent", MODEL, block_agent_prompt,
   [.transfer_to_notion_delegate_agent] ++
   [.add_notion_heading_block, .add_notion_paragraph_block, .add_notion_code_block,
    .add_notion_embed_block, .add_notion_youtube_url_block, .add_notion_image_block,
    .add_notion_bookmark_block, .add_notion_number_list_block,
    .add_notion_bulleted_list_block, .add_notion_to_do_block]⟩

/-- The swarm Result value returned by a transfer function: the target
agent and the context variables threaded to it. -/
structure TransferResult where
  agent : NodeId
  context_variables : List (String × String)
deriving Repr, DecidableEq

/-- The context bundle every transfer function builds from the
process-start configuration. -/
def contextBundle (cfg : Config) : List (String × String) :=
  [("api_key", cfg.NOTION_API_KEY), ("page_id", cfg.NOTION_PAGE_ID)]

/-- transfer_to_notion_delegate_agent from agents.py, paired with the
list of HTTP requests it issues (none). -/
def transfer_to_notion_delegate_agent (cfg : Config) : TransferResult × List Request :=
  (⟨.delegate, contextBundle cfg⟩, [])

/-- transfer_to_notion_page_agent from agents.py, paired with the list
of HTTP requests it issues (none). -/
def transfer_to_notion_page_agent (cfg : Config) : TransferResult × List Request :=
  (⟨.page, contextBundle cfg⟩, [])

/-- transfer_to_notion_block_agent from agents.py, paired with the
list of HTTP requests it issues (none). -/
def transfer_to_notion_block_agent (cfg : Config) : TransferResult × List Request :=
  (⟨.block, contextBundle cfg⟩, [])

/-- A chat message as the dict literals in app.py. -/
structure Message where
  role : String
  content : String
deriving Repr, DecidableEq

/-- The f-string wrapper app.py puts around each typed prompt when
building the single-message list of a turn. -/
def wrapPrompt (prompt : String) : String :=
  "\n                    " ++ prompt ++ "\n                "

/-- The messages list app.py builds for one turn: exactly one user
message holding the wrapped current prompt. -/
def sessionTurnMessages (prompt : String) : List Message :=
  [⟨"user", wrapPrompt prompt⟩]

/-- What one iteration of the while loop in app.py does with the line
read: terminate with the farewell, or dispatch a run. -/
inductive StepResult where
  | exited : String → StepResult
  | ran : Agent → List Message → StepResult
deriving Repr, DecidableEq

/-- One iteration of the app.py while loop: on exit or quit
(case-insensitive) a sys.exit with the farewell, otherwise a run of
the delegate agent on a fresh one-message list. -/
def sessionStep (prompt : String) : StepResult :=
  if pyLower prompt = "exit" ∨ pyLower prompt = "quit" then
    .exited "Bye bye"
  else
    .ran notion_delegate_agent (sessionTurnMessages prompt)

/-- The successive dispatches of the app.py loop on a list of input
lines, stopping at the first exit keyword: agent name dispatched and
messages passed, per turn. -/
def sessionDispatches : List String → List (String × List Message)
  | [] => []
  | p :: rest =>
      match sessionStep p with
      | .exited _ => []
      | .ran a ms => (a.name, ms) :: sessionDispatches rest

/-- The children arrays of the bodies of the requests a tool issued. -/
def sentChildren (t : ToolOutput) : List (Option Json) :=
  t.requests.map fun r => jsonLookup r.body "children"

/-- A concrete configuration used to instantiate universally
quantified theorems. -/
def cfg0 : Config := ⟨"secret-key", "page-123", "https://api.notion.com/v1"⟩

/-- An HTTP behavior in which every call raises httpx.ReadTimeout. -/
def httpTimeout : Request → HttpOutcome := fun _ => .readTimeout

/-- An HTTP behavior in which every call succeeds with an empty JSON
object response. -/
def httpOk : Request → HttpOutcome := fun _ => .response (Json.obj [])

theorem tryRequest_requests (http : Request → HttpOutcome) (req : Request) :
    (tryRequest http req).requests = [req] := by
  cases h : http req <;> simp [tryRequest, h]

theorem tryRequest_timeout (http : Request → HttpOutcome) (req : Request)
    (h : http req = .readTimeout) :
    (tryRequest http req).result = .ok timeoutJson := by
  simp [tryRequest, h]

theorem youtube_valid_reaches_call (cfg : Config) (http : Request → HttpOutcome)
    (u : String) (h1 : pyInStr "youtube.com" u = true)
    (h2 : pyInStr "watch?v=" u = true) :
    (add_notion_youtube_url_block cfg http u).requests.length = 1 ∧
    ((∀ r, http r = .readTimeout) →
      (add_notion_youtube_url_block cfg http u).result = .ok timeoutJson) := by
  simp only [add_notion_youtube_url_block, h1, h2]
  simp only [not_true, if_false, ite_false]
  refine ⟨by simp [tryRequest_requests], fun hT => tryRequest_timeout http _ (hT _)⟩

/-- C2: for each list-accepting operation (numbered list, bulleted
list, to-do), a single comma-delimited string input is used as the
input split on commas with surrounding whitespace stripped from each
element, in order, as the children of the request; on "a, b ,c" the
resulting items are exactly ["a", "b", "c"]. -/
theorem C2_comma_split_trim (cfg : Config) (http : Request → HttpOutcome)
    (s : String) (checked : Bool) :
    sentChildren (add_notion_number_list_block cfg http (.str s)) =
      [some (Json.arr (((pySplitComma s).map pyStrip).map numberedItemBlock))] ∧
    sentChildren (add_notion_bulleted_list_block cfg http (.str s)) =
      [some (Json.arr (((pySplitComma s).map pyStrip).map bulletedItemBlock))] ∧
    sentChildren (add_notion_to_do_block cfg http (.str s) checked) =
      [some (Json.arr (((pySplitComma s).map pyStrip).map (toDoItemBlock checked)))] ∧
    (pySplitComma "a, b ,c").map pyStrip = ["a", "b", "c"] := by
  refine ⟨?_, ?_, ?_, by decide⟩ <;>
    simp [sentChildren, add_notion_number_list_block, add_notion_bulleted_list_block,
      add_notion_to_do_block, normalizeItems, tryRequest_requests, jsonLookup, List.lookup]

/-- C4: the video-embed operation returns a structured error with no
remote call unless the URL contains both the youtube.com marker and
the watch marker; it rejects the two sample URLs without any request
and accepts the sample watch URL with exactly one request. -/
theorem C4_youtube_guard (cfg : Config) (http : Request → HttpOutcome) :
    add_notion_youtube_url_block cfg http "https://example.com/video" =
      ⟨.ok (Json.obj [("error", Json.str "Invalid YouTube video URL")]), []⟩ ∧
    add_notion_youtube_url_block cfg http "https://youtube.com/channel/xyz" =
      ⟨.ok (Json.obj [("error", Json.str "Invalid YouTube video URL")]), []⟩ ∧
    (add_notion_youtube_url_block cfg http "https://youtube.com/watch?v=abc123").requests.length = 1 := by
  refine ⟨rfl, rfl, ?_⟩
  simp [add_notion_youtube_url_block,
    show pyInStr "youtube.com" "https://youtube.com/watch?v=abc123" = true from by decide,
    show pyInStr "watch?v=" "https://youtube.com/watch?v=abc123" = true from by decide,
    tryRequest_requests]

/-- C5: add_notion_embed_block rebinds its url parameter to the
block-children endpoint address before building the payload, so the
embed block sent always carries embed.url equal to that endpoint
address, independent of the caller-supplied URL. -/
theorem C5_embed_url_shadowed (cfg : Config) (http : Request → HttpOutcome)
    (url : String) :
    sentChildren (add_notion_embed_block cfg http url) =
      [some (Json.arr
        [Json.obj [("object", Json.str "block"), ("type", Json.str "embed"),
                   ("embed", Json.obj [("url", Json.str (childrenUrl cfg))])]])] ∧
    add_notion_embed_block cfg http url =
      add_notion_embed_block cfg http "https://caller-supplied.example/watch" := by
  exact ⟨by simp [sentChildren, add_notion_embed_block, tryRequest_requests,
                  jsonLookup, List.lookup], rfl⟩

/-- C10: for each list-accepting operation, an empty-string items
input normalizes to the one-element list containing the empty string,
so exactly one child block with empty content is sent. -/
theorem C10_empty_string_items (cfg : Config) (http : Request → HttpOutcome)
    (checked : Bool) :
    normalizeItems (.str "") = [""] ∧
    sentChildren (add_notion_number_list_block cfg http (.str "")) =
      [some (Json.arr [numberedItemBlock ""])] ∧
    sentChildren (add_notion_bulleted_list_block cfg http (.str "")) =
      [some (Json.arr [bulletedItemBlock ""])] ∧
    sentChildren (add_notion_to_do_block cfg http (.str "") checked) =
      [some (Json.arr [toDoItemBlock checked ""])] := by
  refine ⟨by decide, ?_, ?_, ?_⟩ <;>
    simp [sentChildren, add_notion_number_list_block, add_notion_bulleted_list_block,
      add_notion_to_do_block, tryRequest_requests, jsonLookup, List.lookup,
      show normalizeItems (.str "") = [""] from by decide]

/-- C3: for every content operation, a remote-call timeout is
recoverable: the operation returns the structured error value and no
exception propagates out of the operation boundary; no retry is
attempted (the single issued request is the only one). -/
theorem C3_timeout_recoverable (cfg : Config) (http : Request → HttpOutcome)
    (h : ∀ r, http r = .readTimeout) :
    (∀ title, (create_notion_page cfg http title).result = .ok timeoutJson) ∧
    (∀ a b c d e, (add_notion_heading_block cfg http a b c d e).result = .ok timeoutJson) ∧
    (∀ a b c d, (add_notion_paragraph_block cfg http a b c d).result = .ok timeoutJson) ∧
    (∀ a b c, (add_notion_code_block cfg http a b c).result = .ok timeoutJson) ∧
    (∀ u, (add_notion_embed_block cfg http u).result = .ok timeoutJson) ∧
    (∀ u, pyInStr "youtube.com" u = true → pyInStr "watch?v=" u = true →
        (add_notion_youtube_url_block cfg http u).result = .ok timeoutJson) ∧
    (∀ u, (add_notion_image_block cfg http u).result = .ok timeoutJson) ∧
    (∀ a b, (add_notion_bookmark_block cfg http a b).result = .ok timeoutJson) ∧
    (∀ items, (add_notion_number_list_block cfg http items).result = .ok timeoutJson) ∧
    (∀ items, (add_notion_bulleted_list_block cfg http items).result = .ok timeoutJson) ∧
    (∀ items checked, (add_notion_to_do_block cfg http items checked).result = .ok timeoutJson) := by
  refine ⟨fun title => ?_, fun a b c d e => ?_, fun a b c d => ?_, fun a b c => ?_,
          fun u => ?_,
          fun u h1 h2 => (youtube_valid_reaches_call cfg http u h1 h2).2 h,
          fun u => ?_, fun a b => ?_,
          fun i => ?_, fun i => ?_, fun i c => ?_⟩
  all_goals exact tryRequest_timeout http _ (h _)

theorem C3_timeout_recoverable_witness :
    (create_notion_page cfg0 httpTimeout "Notes").result = .ok timeoutJson ∧
    (add_notion_youtube_url_block cfg0 httpTimeout
       "https://youtube.com/watch?v=abc123").result = .ok timeoutJson ∧
    (add_notion_to_do_block cfg0 httpTimeout (.str "Milk, Eggs") true).result =
      .ok timeoutJson := by
  have h := C3_timeout_recoverable cfg0 httpTimeout (fun _ => rfl)
  exact ⟨h.1 "Notes",
         h.2.2.2.2.2.1 "https://youtube.com/watch?v=abc123" (by decide) (by decide),
         h.2.2.2.2.2.2.2.2.2.2 (.str "Milk, Eggs") true⟩

/-- C6: invoking a transfer capability performs no remote write: it
only names the target node and carries the context bundle built from
the process-start configuration, identical across all three transfer
functions; a transfer-to-page followed by a transfer-to-delegate
leaves the bundle unchanged. -/
theorem C6_transfer_pure_context (cfg : Config) :
    (transfer_to_notion_page_agent cfg).2 = [] ∧
    (transfer_to_notion_delegate_agent cfg).2 = [] ∧
    (transfer_to_notion_block_agent cfg).2 = [] ∧
    (transfer_to_notion_page_agent cfg).1.agent = .page ∧
    (transfer_to_notion_delegate_agent cfg).1.agent = .delegate ∧
    (transfer_to_notion_block_agent cfg).1.agent = .block ∧
    (transfer_to_notion_page_agent cfg).1.context_variables = contextBundle cfg ∧
    (transfer_to_notion_delegate_agent cfg).1.context_variables = contextBundle cfg ∧
    (transfer_to_notion_block_agent cfg).1.context_variables = contextBundle cfg ∧
    (transfer_to_notion_delegate_agent cfg).1.context_variables =
      (transfer_to_notion_page_agent cfg).1.context_variables :=
  ⟨rfl, rfl, rfl, rfl, rfl, rfl, rfl, rfl, rfl, rfl⟩

/-- C7: the delegate agent holds exactly the two transfer capabilities
transfer-to-page and transfer-to-block, and every capability in its
set is a transfer and none is content-mutating. -/
theorem C7_delegate_only_transfers :
    notion_delegate_agent.functions =
      [.transfer_to_notion_page_agent, .transfer_to_notion_block_agent] ∧
    ∀ c ∈ notion_delegate_agent.functions,
      c.isTransfer = true ∧ c.isContentMutating = false := by
  decide

/-- C8: every content operation that reaches its remote call issues
exactly one HTTP request, and each list-type operation sends all of
its items as one ordered children array inside that single request,
never one request per item. -/
theorem C8_single_request (cfg : Config) (http : Request → HttpOutcome) :
    (∀ title, (create_notion_page cfg http title).requests.length = 1) ∧
    (∀ a b c d e, (add_notion_heading_block cfg http a b c d e).requests.length = 1) ∧
    (∀ a b c d, (add_notion_paragraph_block cfg http a b c d).requests.length = 1) ∧
    (∀ a b c, (add_notion_code_block cfg http a b c).requests.length = 1) ∧
    (∀ u, (add_notion_embed_block cfg http u).requests.length = 1) ∧
    (∀ u, pyInStr "youtube.com" u = true → pyInStr "watch?v=" u = true →
        (add_notion_youtube_url_block cfg http u).requests.length = 1) ∧
    (∀ u, (add_notion_image_block cfg http u).requests.length = 1) ∧
    (∀ a b, (add_notion_bookmark_block cfg http a b).requests.length = 1) ∧
    (∀ items, (add_notion_number_list_block cfg http items).requests.length = 1 ∧
        sentChildren (add_notion_number_list_block cfg http items) =
          [some (Json.arr ((normalizeItems items).map numberedItemBlock))]) ∧
    (∀ items, (add_notion_bulleted_list_block cfg http items).requests.length = 1 ∧
        sentChildren (add_notion_bulleted_list_block cfg http items) =
          [some (Json.arr ((normalizeItems items).map bulletedItemBlock))]) ∧
    (∀ items checked, (add_notion_to_do_block cfg http items checked).requests.length = 1 ∧
        sentChildren (add_notion_to_do_block cfg http items checked) =
          [some (Json.arr ((normalizeItems items).map (toDoItemBlock checked)))]) := by
  refine ⟨fun title => ?_, fun a b c d e => ?_, fun a b c d => ?_, fun a b c => ?_,
          fun u => ?_,
          fun u h1 h2 => (youtube_valid_reaches_call cfg http u h1 h2).1,
          fun u => ?_, fun a b => ?_,
          fun i => ⟨?_, ?_⟩, fun i => ⟨?_, ?_⟩, fun i c => ⟨?_, ?_⟩⟩
  all_goals
    simp [create_notion_page, add_notion_heading_block, add_notion_paragraph_block,
      add_notion_code_block, add_notion_embed_block, add_notion_image_block,
      add_notion_bookmark_block, add_notion_number_list_block,
      add_notion_bulleted_list_block, add_notion_to_do_block,
      sentChildren, tryRequest_requests, jsonLookup, List.lookup]

theorem C8_single_request_witness :
    (add_notion_youtube_url_block cfg0 httpOk
       "https://youtube.com/watch?v=abc123").requests.length = 1 ∧
    (create_notion_page cfg0 httpOk "Notes").requests.length = 1 ∧
    (add_notion_bulleted_list_block cfg0 httpOk
       (.list ["Milk", "Eggs", "Bread"])).requests.length = 1 := by
  have h := C8_single_request cfg0 httpOk
  exact ⟨h.2.2.2.2.2.1 "https://youtube.com/watch?v=abc123" (by decide) (by decide),
         h.1 "Notes",
         (h.2.2.2.2.2.2.2.2.2.1 (.list ["Milk", "Eggs", "Bread"])).1⟩

/-- C9: the session loop terminates exactly when the line matches an
exit keyword case-insensitively, exiting with the farewell "Bye bye";
any other input is dispatched as a new user turn. -/
theorem C9_exit_keywords (prompt : String) :
    (sessionStep prompt = .exited "Bye bye" ↔
      (pyLower prompt = "exit" ∨ pyLower prompt = "quit")) ∧
    (¬ (pyLower prompt = "exit" ∨ pyLower prompt = "quit") →
      sessionStep prompt = .ran notion_delegate_agent (sessionTurnMessages prompt)) := by
  by_cases hc : pyLower prompt = "exit" ∨ pyLower prompt = "quit"
  · refine ⟨⟨fun _ => hc, fun _ => ?_⟩, fun hn => absurd hc hn⟩
    simp [sessionStep, hc]
  · refine ⟨⟨fun hstep => ?_, fun hcc => absurd hcc hc⟩, fun _ => ?_⟩
    · simp [sessionStep, hc] at hstep
    · simp [sessionStep, hc]

theorem C9_exit_keywords_witness :
    sessionStep "EXIT" = .exited "Bye bye" ∧
    sessionStep "add a heading" =
      .ran notion_delegate_agent (sessionTurnMessages "add a heading") :=
  ⟨(C9_exit_keywords "EXIT").1.2 (by decide),
   (C9_exit_keywords "add a heading").2 (by decide)⟩

/-- C1: contrary to the claim, the loop in app.py keeps no running
history and no persistent active node: each non-exit turn dispatches
the delegate agent on a fresh one-message list holding only the
current wrapped utterance, so the second turn carries nothing of the
first. -/
theorem C1_fresh_messages_each_turn :
    sessionDispatches ["first utterance", "second utterance"] =
      [("Notion Delegate Agent", [⟨"user", wrapPrompt "first utterance"⟩]),
       ("Notion Delegate Agent", [⟨"user", wrapPrompt "second utterance"⟩])] := by
  rfl

end SwarmNotion
